import Mathlib

/-!
Verification development for the Two-Phase Handshake genetic-circuit repository.

The repository drives external ODE solvers and then post-processes their tabular
output.  The only in-repo algorithm is the hand-rolled discrete-time Euler
integration loop inside `run_simulation` of `src/utils/copasi_hand_shake.py`,
which recalculates the trajectories `C_state`, `Req_out`, `Ack_in` and
`Ack_out` from an externally constructed `Req_in` pulse mask.  We embed that
loop, the pandas-style tabular operations it performs, the five-phase Tellurium
driver `run_tellurium_simulation` of `src/utils/PySB_hand_shake.py`, the event
order of `main` in `src/hand_shake.py`, and `setup_logger` of
`src/utils/logger_functions.py`.  Machine floats are modelled by exact
rationals; every decimal literal appearing in the source is exactly
representable, so the recurrence structure is preserved faithfully.
-/

/-! ## Association-list primitives

pandas DataFrame column assignment `data[name] = vals` replaces the column if
present and appends it otherwise; `data[name]` reads it.  The Python `logging`
registry is the same shape.  We model both with one pair of primitives over
association lists keyed by strings. -/

/-- Look up the value stored under `name`, if any (first match). -/
def findAssoc {α : Type} : List (String × α) → String → Option α
  | [], _ => none
  | p :: ps, name => if p.1 = name then some p.2 else findAssoc ps name

/-- Replace the first entry keyed `name` by `(name, v)`; append `(name, v)`
when no entry is keyed `name`. -/
def updAssoc {α : Type} (name : String) (v : α) : List (String × α) → List (String × α)
  | [] => [(name, v)]
  | p :: ps => if p.1 = name then (name, v) :: ps else p :: updAssoc name v ps

theorem findAssoc_updAssoc_self {α : Type} (l : List (String × α)) (name : String) (v : α) :
    findAssoc (updAssoc name v l) name = some v := by
  induction l with
  | nil => simp [updAssoc, findAssoc]
  | cons p ps ih =>
    by_cases h : p.1 = name
    · simp [updAssoc, findAssoc, h]
    · simp [updAssoc, findAssoc, h, ih]

theorem findAssoc_updAssoc_ne {α : Type} (l : List (String × α)) (name name' : String)
    (v : α) (h : name' ≠ name) :
    findAssoc (updAssoc name v l) name' = findAssoc l name' := by
  induction l with
  | nil => simp [updAssoc, findAssoc, Ne.symm h]
  | cons p ps ih =>
    by_cases hp : p.1 = name
    · have hp' : ¬p.1 = name' := by rw [hp]; exact Ne.symm h
      simp [updAssoc, findAssoc, hp, hp', Ne.symm h]
    · simp [updAssoc, findAssoc, hp, ih]

theorem updAssoc_of_findAssoc_none {α : Type} (l : List (String × α)) (name : String) (v : α)
    (h : findAssoc l name = none) : updAssoc name v l = l ++ [(name, v)] := by
  induction l with
  | nil => simp [updAssoc]
  | cons p ps ih =>
    by_cases hp : p.1 = name
    · simp [findAssoc, hp] at h
    · simp [findAssoc, hp] at h
      simp [updAssoc, hp, ih h]

theorem findAssoc_eq_none_of_not_mem {α : Type} (l : List (String × α)) (name : String)
    (h : name ∉ l.map Prod.fst) : findAssoc l name = none := by
  induction l with
  | nil => rfl
  | cons p ps ih =>
    simp only [List.map_cons, List.mem_cons] at h
    push_neg at h
    simp [findAssoc, Ne.symm h.1, ih h.2]

/-! ## Tabular time series

The solver output of `basico.run_time_course` (and the per-phase tables built
in the Tellurium driver) is a time-indexed table: a time index plus named
concentration columns. -/

/-- A time-indexed table of named numeric columns, as returned by the external
solvers and mutated by the drivers. -/
structure DataFrame where
  index : List ℚ
  cols : List (String × List ℚ)
  deriving DecidableEq

/-- Read a column (`data[name]`); absent columns read as the empty column. -/
def getCol (df : DataFrame) (name : String) : List ℚ :=
  (findAssoc df.cols name).getD []

/-- Column assignment `data[name] = vals`. -/
def setCol (df : DataFrame) (name : String) (vals : List ℚ) : DataFrame :=
  ⟨df.index, updAssoc name vals df.cols⟩

/-- The list of column names, in order. -/
def colNames (df : DataFrame) : List String :=
  df.cols.map Prod.fst

theorem getCol_setCol_self (df : DataFrame) (name : String) (vals : List ℚ) :
    getCol (setCol df name vals) name = vals := by
  simp [getCol, setCol, findAssoc_updAssoc_self]

theorem getCol_setCol_ne (df : DataFrame) (name name' : String) (vals : List ℚ)
    (h : name' ≠ name) :
    getCol (setCol df name vals) name' = getCol df name' := by
  simp [getCol, setCol, findAssoc_updAssoc_ne _ _ _ _ h]

theorem index_setCol (df : DataFrame) (name : String) (vals : List ℚ) :
    (setCol df name vals).index = df.index := rfl

/-! ## The Euler recalculation core of `run_simulation`
(`src/utils/copasi_hand_shake.py`, lines 205-291). -/

/-- Rate constants set inside `run_simulation` for the post-hoc integration. -/
def k_c_set : ℚ := 5.0

/-- C-Element RESET rate used by the post-hoc integration. -/
def k_c_reset : ℚ := 4.0

/-- Propagation rate used by the post-hoc integration. -/
def k_prop : ℚ := 1.5

/-- Inverter rate used by the post-hoc integration. -/
def k_inv : ℚ := 1.8

/-- Degradation rate of `Req_out` used by the post-hoc integration. -/
def k_deg_req : ℚ := 3.0

/-- Phase-2 production rate of `Ack_in` used by the post-hoc integration. -/
def k_ack : ℚ := 0.5

/-- Phase-2 degradation rate of `Ack_in` used by the post-hoc integration. -/
def k_ack_deg : ℚ := 0.05

/-- Clipping to the unit interval: `np.clip(x, 0, 1)`. -/
def clip01 (x : ℚ) : ℚ := min (max x 0) 1

/-- The Req_in pulse mask of `run_simulation`: 0.8 on `[10, 30)` and
`[50, 70)`, 0 elsewhere. -/
def reqInAt (t : ℚ) : ℚ :=
  if (10 ≤ t ∧ t < 30) ∨ (50 ≤ t ∧ t < 70) then 0.8 else 0

/-- One row of the four recalculated trajectories. -/
structure HSState where
  c_state : ℚ
  req_out : ℚ
  ack_in : ℚ
  ack_out : ℚ
  deriving DecidableEq

/-- Initial values of the recalculated arrays: `np.zeros_like` for `c_state`,
`req_out` and `ack_in_recalc`, `np.ones_like` for `ack_out_recalc`. -/
def hsInit : HSState := ⟨0, 0, 0, 1⟩

/-- One iteration of the integration loop body of `run_simulation`
(lines 241-283): `reqIn` is `req_in_signal[i]` and `dt` is
`time[i] - time[i-1]`.  Within an iteration `req_out` reads the freshly
clipped `c_state`, `ack_in` and `ack_out` read the freshly clipped
`req_out`, exactly as in the source. -/
def hsStep (reqIn dt : ℚ) (s : HSState) : HSState :=
  let prod := k_c_set * reqIn * s.ack_out * (1 - s.c_state)
  let reset_factor := 1.0 + (1 - reqIn) * 2.0
  let ack_feedback_c := 8.0 * s.ack_in
  let deg := k_c_reset * s.c_state * (reset_factor + ack_feedback_c)
  let c := clip01 (s.c_state + (prod - deg) * dt)
  let prod_r := k_prop * c
  let reset_factor_req := 1.0 + (1 - reqIn) * 3.0
  let ack_feedback := 5.0 * s.ack_in
  let deg_r := k_deg_req * s.req_out * (reset_factor_req + ack_feedback)
  let r := clip01 (s.req_out + (prod_r - deg_r) * dt)
  let prod_ack_in := k_ack * r * (1 - s.ack_in)
  let reset_factor_ack := 1.0 + reqIn * 5.0
  let deg_ack_in := k_ack_deg * s.ack_in * reset_factor_ack
  let ai := clip01 (s.ack_in + (prod_ack_in - deg_ack_in) * dt)
  let prod_ack := k_inv * (1 - s.ack_out) * (1 - r) * 2.5
  let deg_ack := k_inv * s.ack_out * r * 2.0
  let ao := clip01 (s.ack_out + (prod_ack - deg_ack) * dt)
  ⟨c, r, ai, ao⟩

/-- The four recalculated trajectories at index `i`, as functions of the
`req_in_signal` array and the solver's time grid (both read by index). -/
def hsTrajF (reqIn times : ℕ → ℚ) : ℕ → HSState
  | 0 => hsInit
  | i + 1 => hsStep (reqIn (i + 1)) (times (i + 1) - times i) (hsTrajF reqIn times i)

/-- Array indexing `time[i]` over the solver's time index. -/
def timeFof (time : List ℚ) : ℕ → ℚ := fun i => time.getD i 0

/-- Array indexing `req_in_signal[i]` over the pulse-mask array. -/
def reqFof (time : List ℚ) : ℕ → ℚ := fun i => (time.map reqInAt).getD i 0

/-- The post-solver body of `run_simulation` (lines 205-291): the solver
result table is its input; the pulse mask is written to `Req_in`, `Ack_out`
is read (and never used), and the four Euler-recalculated trajectories
overwrite `C_state`, `Req_out`, `Ack_out` and `Ack_in` in that order. -/
def run_simulation (data : DataFrame) : DataFrame :=
  let time := data.index
  let req_in_signal := time.map reqInAt
  let data1 := setCol data "Req_in" req_in_signal
  let _ack_out := getCol data1 "Ack_out"
  let n := time.length
  let traj := hsTrajF (reqFof time) (timeFof time)
  let c_state := (List.range n).map fun i => (traj i).c_state
  let req_out := (List.range n).map fun i => (traj i).req_out
  let ack_out_recalc := (List.range n).map fun i => (traj i).ack_out
  let ack_in_recalc := (List.range n).map fun i => (traj i).ack_in
  let data2 := setCol data1 "C_state" c_state
  let data3 := setCol data2 "Req_out" req_out
  let data4 := setCol data3 "Ack_out" ack_out_recalc
  let data5 := setCol data4 "Ack_in" ack_in_recalc
  data5

/-! ## Column-level description of `run_simulation` -/

theorem getCol_run_req_in (data : DataFrame) :
    getCol (run_simulation data) "Req_in" = data.index.map reqInAt := by
  simp only [run_simulation]
  rw [getCol_setCol_ne _ _ _ _ (by decide), getCol_setCol_ne _ _ _ _ (by decide),
    getCol_setCol_ne _ _ _ _ (by decide), getCol_setCol_ne _ _ _ _ (by decide),
    getCol_setCol_self]

theorem getCol_run_c_state (data : DataFrame) :
    getCol (run_simulation data) "C_state" =
      (List.range data.index.length).map
        (fun i => (hsTrajF (reqFof data.index) (timeFof data.index) i).c_state) := by
  simp only [run_simulation]
  rw [getCol_setCol_ne _ _ _ _ (by decide), getCol_setCol_ne _ _ _ _ (by decide),
    getCol_setCol_ne _ _ _ _ (by decide), getCol_setCol_self]

theorem getCol_run_req_out (data : DataFrame) :
    getCol (run_simulation data) "Req_out" =
      (List.range data.index.length).map
        (fun i => (hsTrajF (reqFof data.index) (timeFof data.index) i).req_out) := by
  simp only [run_simulation]
  rw [getCol_setCol_ne _ _ _ _ (by decide), getCol_setCol_ne _ _ _ _ (by decide),
    getCol_setCol_self]

theorem getCol_run_ack_out (data : DataFrame) :
    getCol (run_simulation data) "Ack_out" =
      (List.range data.index.length).map
        (fun i => (hsTrajF (reqFof data.index) (timeFof data.index) i).ack_out) := by
  simp only [run_simulation]
  rw [getCol_setCol_ne _ _ _ _ (by decide), getCol_setCol_self]

theorem getCol_run_ack_in (data : DataFrame) :
    getCol (run_simulation data) "Ack_in" =
      (List.range data.index.length).map
        (fun i => (hsTrajF (reqFof data.index) (timeFof data.index) i).ack_in) := by
  simp only [run_simulation]
  rw [getCol_setCol_self]

theorem index_run_simulation (data : DataFrame) :
    (run_simulation data).index = data.index := rfl

/-! ## The unit-interval invariant of the Euler loop -/

theorem clip01_nonneg (x : ℚ) : 0 ≤ clip01 x :=
  le_min (le_max_right x 0) zero_le_one

theorem clip01_le_one (x : ℚ) : clip01 x ≤ 1 :=
  min_le_right _ _

/-- All four components of a recalculated row lie in the unit interval. -/
def inRange01 (s : HSState) : Prop :=
  0 ≤ s.c_state ∧ s.c_state ≤ 1 ∧ 0 ≤ s.req_out ∧ s.req_out ≤ 1 ∧
    0 ≤ s.ack_in ∧ s.ack_in ≤ 1 ∧ 0 ≤ s.ack_out ∧ s.ack_out ≤ 1

theorem hsStep_inRange (reqIn dt : ℚ) (s : HSState) : inRange01 (hsStep reqIn dt s) :=
  ⟨clip01_nonneg _, clip01_le_one _, clip01_nonneg _, clip01_le_one _,
    clip01_nonneg _, clip01_le_one _, clip01_nonneg _, clip01_le_one _⟩

theorem hsTrajF_inRange (reqIn times : ℕ → ℚ) (i : ℕ) :
    inRange01 (hsTrajF reqIn times i) := by
  cases i with
  | zero => exact ⟨le_refl 0, zero_le_one, le_refl 0, zero_le_one, le_refl 0, zero_le_one,
      zero_le_one, le_refl 1⟩
  | succ i => exact hsStep_inRange _ _ _

/-! ## Claims about `run_simulation` -/

/-- C1: every entry of the four recalculated trajectories `C_state`,
`Req_out`, `Ack_in` and `Ack_out` produced by `run_simulation` lies within
`[0, 1]` at every time index, for every time grid returned by the solver:
each Euler update is immediately clipped, so the in-range predicate is
preserved by every iteration of the loop. -/
theorem C1_recalculated_columns_in_unit_interval (data : DataFrame) (col : String)
    (hcol : col = "C_state" ∨ col = "Req_out" ∨ col = "Ack_in" ∨ col = "Ack_out")
    (x : ℚ) (hx : x ∈ getCol (run_simulation data) col) :
    0 ≤ x ∧ x ≤ 1 := by
  rcases hcol with h | h | h | h <;> subst h
  · rw [getCol_run_c_state] at hx
    simp only [List.mem_map] at hx
    obtain ⟨i, -, rfl⟩ := hx
    obtain ⟨h1, h2, -⟩ := hsTrajF_inRange (reqFof data.index) (timeFof data.index) i
    exact ⟨h1, h2⟩
  · rw [getCol_run_req_out] at hx
    simp only [List.mem_map] at hx
    obtain ⟨i, -, rfl⟩ := hx
    obtain ⟨-, -, h1, h2, -⟩ := hsTrajF_inRange (reqFof data.index) (timeFof data.index) i
    exact ⟨h1, h2⟩
  · rw [getCol_run_ack_in] at hx
    simp only [List.mem_map] at hx
    obtain ⟨i, -, rfl⟩ := hx
    obtain ⟨-, -, -, -, h1, h2, -⟩ := hsTrajF_inRange (reqFof data.index) (timeFof data.index) i
    exact ⟨h1, h2⟩
  · rw [getCol_run_ack_out] at hx
    simp only [List.mem_map] at hx
    obtain ⟨i, -, rfl⟩ := hx
    obtain ⟨-, -, -, -, -, -, h1, h2⟩ := hsTrajF_inRange (reqFof data.index) (timeFof data.index) i
    exact ⟨h1, h2⟩

/-- Witness for C1 on the one-point grid `[0]`: the `Ack_out` entry `1` is in
range. -/
theorem C1_witness : (0 : ℚ) ≤ 1 ∧ (1 : ℚ) ≤ 1 :=
  C1_recalculated_columns_in_unit_interval (DataFrame.mk [0] []) "Ack_out"
    (Or.inr (Or.inr (Or.inr rfl))) 1 (by decide)

/-- C2: the core recalculation is the explicit discrete-time Euler scheme with
clipping: for every `i ≥ 1`, with `dt = time[i] - time[i-1]`,
`C_state[i] = clip(C_state[i-1] + (prod - deg)*dt, 0, 1)` where
`prod = k_c_set * Req_in[i] * Ack_out[i-1] * (1 - C_state[i-1])` and
`deg = k_c_reset * C_state[i-1] * ((1 + (1 - Req_in[i])*2) + 8*Ack_in[i-1])`,
and `Req_out`, `Ack_in`, `Ack_out` are each updated by one analogous clipped
finite-difference equation using only values at indices `i` and `i-1`. -/
theorem C2_euler_update_equations (reqIn times : ℕ → ℚ) (i : ℕ) :
    hsTrajF reqIn times (i + 1) =
      (let s := hsTrajF reqIn times i
       let dt := times (i + 1) - times i
       let prod := k_c_set * reqIn (i + 1) * s.ack_out * (1 - s.c_state)
       let deg := k_c_reset * s.c_state * ((1 + (1 - reqIn (i + 1)) * 2) + 8 * s.ack_in)
       let c := clip01 (s.c_state + (prod - deg) * dt)
       let r := clip01 (s.req_out +
         (k_prop * c - k_deg_req * s.req_out * ((1 + (1 - reqIn (i + 1)) * 3) + 5 * s.ack_in)) * dt)
       let ai := clip01 (s.ack_in +
         (k_ack * r * (1 - s.ack_in) - k_ack_deg * s.ack_in * (1 + reqIn (i + 1) * 5)) * dt)
       let ao := clip01 (s.ack_out +
         (k_inv * (1 - s.ack_out) * (1 - r) * 2.5 - k_inv * s.ack_out * r * 2) * dt)
       HSState.mk c r ai ao) := by
  simp only [hsTrajF, hsStep]
  norm_num

/-- C3: the pulse mask assigns `Req_in(t) = 0.8` for `10 ≤ t < 30` or
`50 ≤ t < 70` and `0` otherwise, and the `Req_in` column of the table
returned by `run_simulation` is exactly this mask over the time index. -/
theorem C3_req_in_column_is_pulse_mask (data : DataFrame) :
    getCol (run_simulation data) "Req_in" =
      data.index.map
        (fun t => if (10 ≤ t ∧ t < 30) ∨ (50 ≤ t ∧ t < 70) then (0.8 : ℚ) else 0) := by
  rw [getCol_run_req_in]
  rfl

/-- C4: the recalculated trajectories depend only on the solver output's time
index: two solver tables with the same time index but arbitrarily different
concentration columns yield identical recalculated `C_state`, `Req_out`,
`Ack_in` and `Ack_out` columns. -/
theorem C4_recalc_depends_only_on_time_index (d1 d2 : DataFrame)
    (h : d1.index = d2.index) :
    getCol (run_simulation d1) "C_state" = getCol (run_simulation d2) "C_state" ∧
    getCol (run_simulation d1) "Req_out" = getCol (run_simulation d2) "Req_out" ∧
    getCol (run_simulation d1) "Ack_in" = getCol (run_simulation d2) "Ack_in" ∧
    getCol (run_simulation d1) "Ack_out" = getCol (run_simulation d2) "Ack_out" := by
  refine ⟨?_, ?_, ?_, ?_⟩ <;>
    simp [getCol_run_c_state, getCol_run_req_out, getCol_run_ack_in, getCol_run_ack_out, h]

/-- Witness for C4: two one-row tables sharing the index `[0]` but holding
different `Ack_out` solver columns produce the same recalculated columns. -/
theorem C4_witness :
    getCol (run_simulation (DataFrame.mk [0] [("Ack_out", [5])])) "C_state" =
      getCol (run_simulation (DataFrame.mk [0] [("Ack_out", [7])])) "C_state" ∧
    getCol (run_simulation (DataFrame.mk [0] [("Ack_out", [5])])) "Req_out" =
      getCol (run_simulation (DataFrame.mk [0] [("Ack_out", [7])])) "Req_out" ∧
    getCol (run_simulation (DataFrame.mk [0] [("Ack_out", [5])])) "Ack_in" =
      getCol (run_simulation (DataFrame.mk [0] [("Ack_out", [7])])) "Ack_in" ∧
    getCol (run_simulation (DataFrame.mk [0] [("Ack_out", [5])])) "Ack_out" =
      getCol (run_simulation (DataFrame.mk [0] [("Ack_out", [7])])) "Ack_out" :=
  C4_recalc_depends_only_on_time_index
    (DataFrame.mk [0] [("Ack_out", [5])]) (DataFrame.mk [0] [("Ack_out", [7])]) rfl

/-- C5: `run_simulation` mutates the table only at `Req_in`, `C_state`,
`Req_out`, `Ack_out` and `Ack_in`: every other column, and the time index,
are unchanged in the returned table. -/
theorem C5_only_five_columns_mutated (data : DataFrame) :
    (run_simulation data).index = data.index ∧
      ∀ name : String, name ≠ "Req_in" → name ≠ "C_state" → name ≠ "Req_out" →
        name ≠ "Ack_out" → name ≠ "Ack_in" →
        getCol (run_simulation data) name = getCol data name := by
  refine ⟨rfl, ?_⟩
  intro name h1 h2 h3 h4 h5
  simp only [run_simulation]
  rw [getCol_setCol_ne _ _ _ _ h5, getCol_setCol_ne _ _ _ _ h4,
    getCol_setCol_ne _ _ _ _ h3, getCol_setCol_ne _ _ _ _ h2,
    getCol_setCol_ne _ _ _ _ h1]

/-- Witness for C5: a `P_off` solver column passes through unchanged. -/
theorem C5_witness :
    getCol (run_simulation (DataFrame.mk [0] [("P_off", [0.66])])) "P_off" =
      getCol (DataFrame.mk [0] [("P_off", [0.66])]) "P_off" :=
  (C5_only_five_columns_mutated (DataFrame.mk [0] [("P_off", [0.66])])).2 "P_off"
    (by decide) (by decide) (by decide) (by decide) (by decide)

/-- The pulse mask vanishes below the first pulse start. -/
theorem reqInAt_eq_zero_of_lt_ten (t : ℚ) (h : t < 10) : reqInAt t = 0 := by
  unfold reqInAt
  rw [if_neg]
  rintro (⟨h1, -⟩ | ⟨h1, -⟩) <;> linarith

/-- A step driven by a zero `Req_in` leaves the initial state fixed. -/
theorem hsStep_zero_fixes_init (dt : ℚ) : hsStep 0 dt hsInit = hsInit := by
  simp [hsStep, hsInit, clip01]

/-- C8: before the first `Req_in` pulse — at every time point `t < 10` of a
monotone grid — the recalculated trajectories hold their initial values
exactly: `C_state = 0`, `Req_out = 0`, `Ack_in = 0` and `Ack_out = 1`. -/
theorem C8_initial_values_before_first_pulse (times : ℕ → ℚ) (hmono : Monotone times)
    (i : ℕ) (hi : times i < 10) :
    (hsTrajF (fun k => reqInAt (times k)) times i).c_state = 0 ∧
    (hsTrajF (fun k => reqInAt (times k)) times i).req_out = 0 ∧
    (hsTrajF (fun k => reqInAt (times k)) times i).ack_in = 0 ∧
    (hsTrajF (fun k => reqInAt (times k)) times i).ack_out = 1 := by
  have key : ∀ j : ℕ, times j < 10 → hsTrajF (fun k => reqInAt (times k)) times j = hsInit := by
    intro j
    induction j with
    | zero => intro _; rfl
    | succ j ih =>
      intro hj
      have hle : times j ≤ times (j + 1) := hmono (Nat.le_succ j)
      have hjlt : times j < 10 := lt_of_le_of_lt hle hj
      show hsStep (reqInAt (times (j + 1))) (times (j + 1) - times j)
        (hsTrajF (fun k => reqInAt (times k)) times j) = hsInit
      rw [ih hjlt, reqInAt_eq_zero_of_lt_ten _ hj, hsStep_zero_fixes_init]
  rw [key i hi]
  exact ⟨rfl, rfl, rfl, rfl⟩

/-- Witness for C8 on the constant grid at time `0`. -/
theorem C8_witness :
    (hsTrajF (fun k => reqInAt ((fun _ => (0 : ℚ)) k)) (fun _ => (0 : ℚ)) 5).c_state = 0 ∧
    (hsTrajF (fun k => reqInAt ((fun _ => (0 : ℚ)) k)) (fun _ => (0 : ℚ)) 5).req_out = 0 ∧
    (hsTrajF (fun k => reqInAt ((fun _ => (0 : ℚ)) k)) (fun _ => (0 : ℚ)) 5).ack_in = 0 ∧
    (hsTrajF (fun k => reqInAt ((fun _ => (0 : ℚ)) k)) (fun _ => (0 : ℚ)) 5).ack_out = 1 :=
  C8_initial_values_before_first_pulse (fun _ => (0 : ℚ)) monotone_const 5 (by norm_num)

/-- C9: the post-hoc hand integration in `run_simulation` integrates exactly
four arrays — the recalculated `C_state`, `Req_out`, `Ack_out` and `Ack_in`
columns are precisely the four components of the Euler trajectory. -/
theorem C9_exactly_four_integrated_arrays (data : DataFrame) :
    getCol (run_simulation data) "C_state" =
      (List.range data.index.length).map
        (fun i => (hsTrajF (reqFof data.index) (timeFof data.index) i).c_state) ∧
    getCol (run_simulation data) "Req_out" =
      (List.range data.index.length).map
        (fun i => (hsTrajF (reqFof data.index) (timeFof data.index) i).req_out) ∧
    getCol (run_simulation data) "Ack_out" =
      (List.range data.index.length).map
        (fun i => (hsTrajF (reqFof data.index) (timeFof data.index) i).ack_out) ∧
    getCol (run_simulation data) "Ack_in" =
      (List.range data.index.length).map
        (fun i => (hsTrajF (reqFof data.index) (timeFof data.index) i).ack_in) :=
  ⟨getCol_run_c_state data, getCol_run_req_out data,
    getCol_run_ack_out data, getCol_run_ack_in data⟩

/-! ## The five-phase Tellurium driver
(`run_tellurium_simulation`, `src/utils/PySB_hand_shake.py`, lines 148-232).

The solver `rr.simulate(t0, t1, n)` is external; a phase's result is its time
column together with one column per floating species (`result[:, i + 1]`),
modelled abstractly as a `SimResult`. -/

/-- One `rr.simulate` result: the time column and the per-species columns, in
the order of `rr.getFloatingSpeciesIds()`. -/
structure SimResult where
  times : List ℚ
  cols : List (List ℚ)

/-- The per-phase table: `pd.DataFrame({name: result[:, i + 1] ...}, index=time)`
followed by the broadcast assignment `df["Req_in"] = v`. -/
def phaseDF (names : List String) (r : SimResult) (v : ℚ) : DataFrame :=
  setCol ⟨r.times, names.zip r.cols⟩ "Req_in" (List.replicate r.times.length v)

/-- Row-wise concatenation `pd.concat` of two tables with equal column sets. -/
def concatRows (a b : DataFrame) : DataFrame :=
  ⟨a.index ++ b.index, a.cols.map (fun p => (p.1, p.2 ++ getCol b p.1))⟩

theorem findAssoc_concat_map (b : DataFrame) (l : List (String × List ℚ)) (name : String) :
    findAssoc (l.map (fun p => (p.1, p.2 ++ getCol b p.1))) name =
      (findAssoc l name).map (fun v => v ++ getCol b name) := by
  induction l with
  | nil => rfl
  | cons p ps ih =>
    by_cases h : p.1 = name
    · subst h; simp [findAssoc]
    · simp [findAssoc, h, ih]

theorem colNames_concatRows (a b : DataFrame) :
    colNames (concatRows a b) = colNames a := by
  simp [concatRows, colNames]

theorem findAssoc_concatRows (a b : DataFrame) (name : String) (v : List ℚ)
    (h : findAssoc a.cols name = some v) :
    findAssoc (concatRows a b).cols name = some (v ++ getCol b name) := by
  simp only [concatRows, findAssoc_concat_map, h, Option.map_some']

theorem getCol_concatRows (a b : DataFrame) (name : String) (v : List ℚ)
    (h : findAssoc a.cols name = some v) :
    getCol (concatRows a b) name = v ++ getCol b name := by
  simp only [getCol, findAssoc_concatRows a b name v h, Option.getD_some]

/-- The concatenated table of the five phases, `Req_in` constant per phase:
`0.0` on phases 1, 3, 5 and `1.0` on phases 2 and 4. -/
def run_tellurium_simulation (names : List String) (r1 r2 r3 r4 r5 : SimResult) : DataFrame :=
  concatRows (concatRows (concatRows (concatRows
    (phaseDF names r1 0) (phaseDF names r2 1))
    (phaseDF names r3 0)) (phaseDF names r4 1)) (phaseDF names r5 0)

theorem findAssoc_phaseDF_req_in (names : List String) (r : SimResult) (v : ℚ) :
    findAssoc (phaseDF names r v).cols "Req_in" = some (List.replicate r.times.length v) :=
  findAssoc_updAssoc_self _ _ _

theorem colNames_phaseDF (names : List String) (r : SimResult) (v : ℚ)
    (hni : "Req_in" ∉ names) (hlen : names.length ≤ r.cols.length) :
    colNames (phaseDF names r v) = names ++ ["Req_in"] := by
  have hfst : (names.zip r.cols).map Prod.fst = names := List.map_fst_zip names r.cols hlen
  have hnone : findAssoc (names.zip r.cols) "Req_in" = none := by
    apply findAssoc_eq_none_of_not_mem
    rw [hfst]; exact hni
  simp [phaseDF, setCol, colNames, updAssoc_of_findAssoc_none _ _ _ hnone, hfst]

theorem getCol_phaseDF_req_in (names : List String) (r : SimResult) (v : ℚ) :
    getCol (phaseDF names r v) "Req_in" = List.replicate r.times.length v :=
  getCol_setCol_self _ _ _

/-- C6: `run_tellurium_simulation` returns a single table concatenating the
five simulated phases, whose `Req_in` column equals `1.0` on every row coming
from the phase-2 and phase-4 segments and `0.0` on every row coming from the
phase-1, phase-3 and phase-5 segments, whose other columns are exactly the
model's floating species, and whose index concatenates the phase times. -/
theorem C6_tellurium_five_phase_table (names : List String) (r1 r2 r3 r4 r5 : SimResult)
    (hni : "Req_in" ∉ names)
    (h1 : names.length ≤ r1.cols.length) (_h2 : names.length ≤ r2.cols.length)
    (_h3 : names.length ≤ r3.cols.length) (_h4 : names.length ≤ r4.cols.length)
    (_h5 : names.length ≤ r5.cols.length) :
    getCol (run_tellurium_simulation names r1 r2 r3 r4 r5) "Req_in" =
      List.replicate r1.times.length (0 : ℚ) ++ List.replicate r2.times.length 1 ++
        List.replicate r3.times.length 0 ++ List.replicate r4.times.length 1 ++
        List.replicate r5.times.length 0 ∧
    colNames (run_tellurium_simulation names r1 r2 r3 r4 r5) = names ++ ["Req_in"] ∧
    (run_tellurium_simulation names r1 r2 r3 r4 r5).index =
      r1.times ++ r2.times ++ r3.times ++ r4.times ++ r5.times := by
  refine ⟨?_, ?_, ?_⟩
  · have f1 := findAssoc_phaseDF_req_in names r1 0
    have f12 := findAssoc_concatRows _ (phaseDF names r2 1) "Req_in" _ f1
    rw [getCol_phaseDF_req_in] at f12
    have f123 := findAssoc_concatRows _ (phaseDF names r3 0) "Req_in" _ f12
    rw [getCol_phaseDF_req_in] at f123
    have f1234 := findAssoc_concatRows _ (phaseDF names r4 1) "Req_in" _ f123
    rw [getCol_phaseDF_req_in] at f1234
    have g := getCol_concatRows _ (phaseDF names r5 0) "Req_in" _ f1234
    rw [getCol_phaseDF_req_in] at g
    rw [run_tellurium_simulation, g]
  · rw [run_tellurium_simulation, colNames_concatRows, colNames_concatRows,
      colNames_concatRows, colNames_concatRows, colNames_phaseDF names r1 0 hni h1]
  · simp [run_tellurium_simulation, concatRows, phaseDF, setCol, List.append_assoc]

/-- Witness for C6 on five one-row abstract solver results over the four
floating species of the Antimony model. -/
theorem C6_witness :
    getCol (run_tellurium_simulation ["mRNA_Req", "Req_out", "mRNA_Ack", "Ack_out"]
        (SimResult.mk [0] [[1], [2], [3], [4]]) (SimResult.mk [10] [[1], [2], [3], [4]])
        (SimResult.mk [30] [[1], [2], [3], [4]]) (SimResult.mk [50] [[1], [2], [3], [4]])
        (SimResult.mk [70] [[1], [2], [3], [4]])) "Req_in" =
      List.replicate 1 (0 : ℚ) ++ List.replicate 1 1 ++ List.replicate 1 0 ++
        List.replicate 1 1 ++ List.replicate 1 0 ∧
    colNames (run_tellurium_simulation ["mRNA_Req", "Req_out", "mRNA_Ack", "Ack_out"]
        (SimResult.mk [0] [[1], [2], [3], [4]]) (SimResult.mk [10] [[1], [2], [3], [4]])
        (SimResult.mk [30] [[1], [2], [3], [4]]) (SimResult.mk [50] [[1], [2], [3], [4]])
        (SimResult.mk [70] [[1], [2], [3], [4]])) =
      ["mRNA_Req", "Req_out", "mRNA_Ack", "Ack_out"] ++ ["Req_in"] ∧
    (run_tellurium_simulation ["mRNA_Req", "Req_out", "mRNA_Ack", "Ack_out"]
        (SimResult.mk [0] [[1], [2], [3], [4]]) (SimResult.mk [10] [[1], [2], [3], [4]])
        (SimResult.mk [30] [[1], [2], [3], [4]]) (SimResult.mk [50] [[1], [2], [3], [4]])
        (SimResult.mk [70] [[1], [2], [3], [4]])).index =
      [0] ++ [10] ++ [30] ++ [50] ++ [70] :=
  C6_tellurium_five_phase_table ["mRNA_Req", "Req_out", "mRNA_Ack", "Ack_out"]
    (SimResult.mk [0] [[1], [2], [3], [4]]) (SimResult.mk [10] [[1], [2], [3], [4]])
    (SimResult.mk [30] [[1], [2], [3], [4]]) (SimResult.mk [50] [[1], [2], [3], [4]])
    (SimResult.mk [70] [[1], [2], [3], [4]]) (by decide)
    (by decide) (by decide) (by decide) (by decide) (by decide)

/-! ## Event order of `main` in `src/hand_shake.py` (lines 92-122)

`main` calls `criar_modelo_handshake` (parameters then species, after
`basico.new_model`), then `definir_reacoes_cineticas` (reactions), then
`basico.run_time_course`, then prints the head of the results, then plots,
then saves the model.  We record the sequence of externally visible actions
as a trace. -/

/-- Externally visible actions performed by the driver script. -/
inductive Ev where
  | newModel (name : String)
  | addParam (name : String)
  | addSpecies (name : String)
  | addReaction (name : String)
  | runTimeCourse
  | printResults
  | plotResults
  | saveModel
  deriving DecidableEq

/-- Trace of `criar_modelo_handshake`: model creation, the seven global
parameters, then the two species. -/
def criar_modelo_handshake_events : List Ev :=
  [Ev.newModel "Handshake_TwoPhase_sRNA",
   Ev.addParam "V_MAX1", Ev.addParam "V_MAX2", Ev.addParam "K_M_ATIVACAO",
   Ev.addParam "K_I_REPRESSAO", Ev.addParam "HILL_COEF",
   Ev.addParam "k_DEG1", Ev.addParam "k_DEG2",
   Ev.addSpecies "sRNA1", Ev.addSpecies "sRNA2"]

/-- Trace of `definir_reacoes_cineticas`: the four reactions. -/
def definir_reacoes_cineticas_events : List Ev :=
  [Ev.addReaction "PROD_sRNA1_REPRIMIDA", Ev.addReaction "PROD_sRNA2_ATIVADA",
   Ev.addReaction "DEG_sRNA1", Ev.addReaction "DEG_sRNA2"]

/-- Trace of `main`: build the model, define the reactions, run the time
course, print the results, plot, save. -/
def main_events : List Ev :=
  criar_modelo_handshake_events ++ definir_reacoes_cineticas_events ++
    [Ev.runTimeCourse, Ev.printResults, Ev.plotResults, Ev.saveModel]

/-- Whether an action configures a parameter. -/
def isParamEv : Ev → Bool
  | Ev.addParam _ => true
  | _ => false

/-- Whether an action configures a species. -/
def isSpeciesEv : Ev → Bool
  | Ev.addSpecies _ => true
  | _ => false

/-- Whether an action configures a reaction. -/
def isReactionEv : Ev → Bool
  | Ev.addReaction _ => true
  | _ => false

theorem main_events_order_aux :
    ∀ i j : Fin main_events.length,
      (isParamEv (main_events.get i) = true → isSpeciesEv (main_events.get j) = true →
        (i : ℕ) < j) ∧
      (isSpeciesEv (main_events.get i) = true → isReactionEv (main_events.get j) = true →
        (i : ℕ) < j) ∧
      (main_events.get i = Ev.runTimeCourse → main_events.get j = Ev.printResults →
        (i : ℕ) < j) ∧
      (main_events.get i = Ev.printResults → main_events.get j = Ev.plotResults →
        (i : ℕ) < j) ∧
      (main_events.get i = Ev.runTimeCourse → main_events.get j = Ev.plotResults →
        (i : ℕ) < j) := by
  decide

/-- C7: `main` performs its steps in the fixed order configure parameters →
configure species → configure reactions → run the simulation → print → plot:
in the trace, species are never configured before parameters, reactions never
before species, printing and plotting never before the simulation call, and
plotting never before printing. -/
theorem C7_main_event_order (i j : ℕ)
    (hi : i < main_events.length) (hj : j < main_events.length) :
    (isParamEv (main_events.get ⟨i, hi⟩) = true →
      isSpeciesEv (main_events.get ⟨j, hj⟩) = true → i < j) ∧
    (isSpeciesEv (main_events.get ⟨i, hi⟩) = true →
      isReactionEv (main_events.get ⟨j, hj⟩) = true → i < j) ∧
    (main_events.get ⟨i, hi⟩ = Ev.runTimeCourse →
      main_events.get ⟨j, hj⟩ = Ev.printResults → i < j) ∧
    (main_events.get ⟨i, hi⟩ = Ev.printResults →
      main_events.get ⟨j, hj⟩ = Ev.plotResults → i < j) ∧
    (main_events.get ⟨i, hi⟩ = Ev.runTimeCourse →
      main_events.get ⟨j, hj⟩ = Ev.plotResults → i < j) :=
  main_events_order_aux ⟨i, hi⟩ ⟨j, hj⟩

/-- Witness for C7: the first parameter (index 1) precedes the first species
(index 8). -/
theorem C7_witness : (1 : ℕ) < 8 :=
  (C7_main_event_order 1 8 (by decide) (by decide)).1 (by decide) (by decide)

/-! ## `setup_logger` (`src/utils/logger_functions.py`, lines 9-32)

The host `logging` facility keeps a registry of loggers keyed by name;
`logging.getLogger(name)` returns the registered logger or registers a fresh
one (level `NOTSET = 0`, propagating, no handlers).  `setup_logger` sets the
level, disables propagation, and installs one formatted stream handler only
when the logger has none. -/

/-- A log handler; `setup_logger` only ever installs stream handlers carrying
the format and date-format strings below. -/
inductive Handler where
  | stream (fmt : String) (datefmt : String)
  deriving DecidableEq

/-- The mutable state of one logger object. -/
structure PyLogger where
  level : ℤ
  propagate : Bool
  handlers : List Handler
  deriving DecidableEq

/-- The registry of the host logging facility. -/
structure LogState where
  loggers : List (String × PyLogger)
  deriving DecidableEq

/-- A newly registered logger: level `NOTSET`, propagating, no handlers. -/
def freshLogger : PyLogger := ⟨0, true, []⟩

/-- The message format string passed to the formatter. -/
def logFormat : String := "%(asctime)s - %(name)s - %(levelname)s - %(message)s"

/-- The date format string passed to the formatter. -/
def logDateFormat : String := "%Y-%m-%d %H:%M:%S"

/-- `logging.getLogger(name)`: return the registered logger, registering a
fresh one when absent. -/
def getLogger (st : LogState) (name : String) : PyLogger × LogState :=
  match findAssoc st.loggers name with
  | some lg => (lg, st)
  | none => (freshLogger, ⟨updAssoc name freshLogger st.loggers⟩)

/-- `setup_logger(name, level)`: set the level, disable propagation, and add
one formatted stream handler only if the logger has no handlers yet.  The
returned logger and the updated registry are made explicit. -/
def setup_logger (st : LogState) (name : String) (level : ℤ) : PyLogger × LogState :=
  let r := getLogger st name
  let app_logger := r.1
  let st1 := r.2
  let lg1 : PyLogger := ⟨level, false, app_logger.handlers⟩
  let lg2 : PyLogger :=
    if lg1.handlers.isEmpty then
      ⟨lg1.level, lg1.propagate, lg1.handlers ++ [Handler.stream logFormat logDateFormat]⟩
    else lg1
  (lg2, ⟨updAssoc name lg2 st1.loggers⟩)

theorem updAssoc_updAssoc {α : Type} (l : List (String × α)) (name : String) (v w : α) :
    updAssoc name v (updAssoc name w l) = updAssoc name v l := by
  induction l with
  | nil => simp [updAssoc]
  | cons p ps ih =>
    by_cases h : p.1 = name
    · simp [updAssoc, h]
    · simp [updAssoc, h, ih]

/-- C10: `setup_logger` is idempotent with respect to handler installation:
starting from a registry where `name` is unregistered, the first call installs
exactly one stream handler, a second call (at any level) leaves the handler
list at exactly that one stream handler, and a second call at the same level
returns the same logger and the same registry. -/
theorem C10_setup_logger_idempotent (st : LogState) (name : String) (lvl lvl2 : ℤ)
    (h : findAssoc st.loggers name = none) :
    (setup_logger st name lvl).1.handlers = [Handler.stream logFormat logDateFormat] ∧
    (setup_logger (setup_logger st name lvl).2 name lvl2).1.handlers =
      [Handler.stream logFormat logDateFormat] ∧
    (setup_logger (setup_logger st name lvl).2 name lvl).1 = (setup_logger st name lvl).1 ∧
    (setup_logger (setup_logger st name lvl).2 name lvl).2 = (setup_logger st name lvl).2 := by
  have e1 : setup_logger st name lvl =
      (⟨lvl, false, [Handler.stream logFormat logDateFormat]⟩,
        ⟨updAssoc name ⟨lvl, false, [Handler.stream logFormat logDateFormat]⟩ st.loggers⟩) := by
    simp [setup_logger, getLogger, h, freshLogger, updAssoc_updAssoc]
  have e2 : ∀ l2 : ℤ, setup_logger
      (⟨updAssoc name ⟨lvl, false, [Handler.stream logFormat logDateFormat]⟩ st.loggers⟩ : LogState)
      name l2 =
      (⟨l2, false, [Handler.stream logFormat logDateFormat]⟩,
        ⟨updAssoc name ⟨l2, false, [Handler.stream logFormat logDateFormat]⟩ st.loggers⟩) := by
    intro l2
    simp [setup_logger, getLogger, findAssoc_updAssoc_self, updAssoc_updAssoc]
  rw [e1]
  simp [e2]

/-- Witness for C10 from the empty registry, levels `INFO = 20` and
`DEBUG = 10`. -/
theorem C10_witness :
    (setup_logger (LogState.mk []) "app" 20).1.handlers =
      [Handler.stream logFormat logDateFormat] ∧
    (setup_logger (setup_logger (LogState.mk []) "app" 20).2 "app" 10).1.handlers =
      [Handler.stream logFormat logDateFormat] ∧
    (setup_logger (setup_logger (LogState.mk []) "app" 20).2 "app" 20).1 =
      (setup_logger (LogState.mk []) "app" 20).1 ∧
    (setup_logger (setup_logger (LogState.mk []) "app" 20).2 "app" 20).2 =
      (setup_logger (LogState.mk []) "app" 20).2 :=
  C10_setup_logger_idempotent (LogState.mk []) "app" 20 10 rfl
